import Mathlib

/-!
Verification of the DreamNest backend (FastAPI + MongoDB glue).

Shallow embedding of `src/main.py` and `src/schemas.py`:
* Python floats in the quotation calculator are modelled as rationals (`ℚ`),
  with Python 3 `round(x, 2)` modelled as round-half-to-even at 2 decimals.
* The document store is modelled as association lists from id strings to
  typed records; `bson.ObjectId.is_valid` on a string is "24 hex characters".
* Request handlers become pure functions `DB → input → response × DB`;
  `HTTPException` becomes an error constructor carrying status and detail.
-/

namespace DreamNest

/-! ### ObjectId validity (`bson.ObjectId.is_valid` on a string argument) -/

def isHexChar (c : Char) : Bool :=
  (('0' ≤ c && c ≤ '9') || ('a' ≤ c && c ≤ 'f') || ('A' ≤ c && c ≤ 'F'))

/-- `ObjectId.is_valid(s)` for a string: exactly 24 hexadecimal characters. -/
def oidValid (s : String) : Bool :=
  s.length == 24 && s.toList.all isHexChar

/-- `str(ObjectId(s))` lower-cases the hex; lookups by `ObjectId(s)` therefore
compare case-insensitively.  Stored keys are already lower-case.
(Character-wise lower-casing, the definition of `String.toLower`.) -/
def oidKey (s : String) : String := ⟨s.data.map Char.toLower⟩

/-- Generated ObjectId for the `n`-th insert: `n` in hex, zero-padded to 24. -/
def genId (n : Nat) : String :=
  let ds := Nat.toDigits 16 n
  ⟨List.replicate (24 - ds.length) '0' ++ ds⟩

/-! ### Python `round(x, 2)`: round half to even at two decimal places -/

/-- Round a rational to the nearest integer, ties to the even integer.
With `f = ⌊q⌋` the fractional part is `(q.num - f * q.den) / q.den`, so
`q - f < 1/2 ↔ 2 * (q.num - f * q.den) < q.den`, and likewise for `>`;
the tie goes to whichever of `f`, `f + 1` is even. -/
def roundHalfEven (q : ℚ) : ℤ :=
  let f : ℤ := q.floor
  let t : ℤ := 2 * (q.num - f * q.den)
  if t < (q.den : ℤ) then f
  else if (q.den : ℤ) < t then f + 1
  else if f % 2 = 0 then f else f + 1

/-- `round(q, 2)` from Python 3, over exact rationals. -/
def round2 (q : ℚ) : ℚ := Rat.divInt (roundHalfEven (q * 100)) 100

/-! ### `schemas.QuotationInputs` and the quotation calculator -/

/-- `QuotationInputs` (schemas.py): five numeric fields, all validated
non-negative by pydantic (`ge=0`); defaults gst=18, markup=10 are applied by
the schema layer before `compute_quote` runs. -/
structure QuotationInputs where
  area : ℚ
  rate_per_sqft : ℚ
  material_cost : ℚ
  gst_percent : ℚ
  markup_percent : ℚ
deriving DecidableEq, Repr

/-- Pydantic validation of `QuotationInputs`: every field is `ge=0`. -/
def QuotationInputs.Valid (i : QuotationInputs) : Prop :=
  0 ≤ i.area ∧ 0 ≤ i.rate_per_sqft ∧ 0 ≤ i.material_cost ∧
    0 ≤ i.gst_percent ∧ 0 ≤ i.markup_percent

instance (i : QuotationInputs) : Decidable i.Valid := by
  unfold QuotationInputs.Valid; infer_instance

/-- The four fields returned by `POST /api/quotations/compute`. -/
structure QuoteResult where
  subtotal : ℚ
  gst : ℚ
  markup : ℚ
  total : ℚ
deriving DecidableEq, Repr

/-- `compute_quote` (main.py lines 199–211): the stages are computed on
unrounded values; each returned field is rounded once, at return. -/
def compute_quote (inputs : QuotationInputs) : QuoteResult :=
  let subtotal := inputs.area * inputs.rate_per_sqft + inputs.material_cost
  let gst := subtotal * (inputs.gst_percent / 100)
  let total_with_gst := subtotal + gst
  let markup := total_with_gst * (inputs.markup_percent / 100)
  let grand_total := round2 (total_with_gst + markup)
  { subtotal := round2 subtotal
    gst := round2 gst
    markup := round2 markup
    total := grand_total }

/-- The computation as the spec's words describe it for claim C3: every stage
rounded to 2 decimals, each later stage computed from the already-rounded
value of the earlier stage.  (Spec-side definition, for comparison with
`compute_quote`, which is translated from the source.) -/
def compute_quote_staged (inputs : QuotationInputs) : QuoteResult :=
  let subtotal := round2 (inputs.area * inputs.rate_per_sqft + inputs.material_cost)
  let gst := round2 (subtotal * (inputs.gst_percent / 100))
  let total_with_gst := round2 (subtotal + gst)
  let markup := round2 (total_with_gst * (inputs.markup_percent / 100))
  let grand_total := round2 (total_with_gst + markup)
  { subtotal := subtotal, gst := gst, markup := markup, total := grand_total }

/-! ### Entity records (schemas.py) -/

/-- `Lead` (schemas.py): contact data, assignment references, free-form
status (pydantic default "New"), ordered list of follow-up ids. -/
structure Lead where
  name : String
  phone : String
  email : Option String
  assigned_agent_id : Option String
  assigned_manager_id : Option String
  requirement_type : Option String
  source : Option String
  status : String
  follow_up_ids : List String
deriving DecidableEq, Repr

/-- `FollowUp` (schemas.py): the request body of `POST /api/followups` and
the persisted record. -/
structure FollowUp where
  lead_id : String
  notes : String
  next_date : Option String
  type : String
  agent_id : Option String
deriving DecidableEq, Repr

/-- `Quotation` (schemas.py). -/
structure Quotation where
  lead_id : String
  project_id : Option String
  pricing_inputs : QuotationInputs
  generated_price : ℚ
  pdf_url : Option String
  created_by : Option String
deriving DecidableEq, Repr

/-- Body of `PATCH /api/leads/{lead_id}` (`LeadUpdate` in main.py): three
optional fields, each defaulting to None. -/
structure LeadUpdate where
  status : Option String
  assigned_agent_id : Option String
  assigned_manager_id : Option String
deriving DecidableEq, Repr

/-- `payload.model_dump(exclude_none=True)` yields the empty dict exactly
when all three fields are None. -/
def LeadUpdate.isEmptyDump (p : LeadUpdate) : Bool :=
  p.status.isNone && p.assigned_agent_id.isNone && p.assigned_manager_id.isNone

/-- Effect of `{"$set": update_doc}` on a matched lead, where `update_doc`
holds exactly the non-None fields of the payload. -/
def LeadUpdate.applyTo (p : LeadUpdate) (l : Lead) : Lead :=
  { l with
    status := p.status.getD l.status
    assigned_agent_id :=
      match p.assigned_agent_id with
      | some v => some v
      | none => l.assigned_agent_id
    assigned_manager_id :=
      match p.assigned_manager_id with
      | some v => some v
      | none => l.assigned_manager_id }

/-- Body of `POST /api/quotations` (`QuotationCreate` in main.py). -/
structure QuotationCreate where
  lead_id : String
  project_id : Option String
  inputs : QuotationInputs
  created_by : Option String
deriving DecidableEq, Repr

/-! ### Document store state and persistence operations -/

/-- The MongoDB database, restricted to the collections the claims touch.
`nextId` drives ObjectId generation for inserts. -/
structure DB where
  lead : List (String × Lead)
  followup : List (String × FollowUp)
  quotation : List (String × Quotation)
  nextId : Nat
deriving DecidableEq, Repr

def DB.empty : DB := ⟨[], [], [], 0⟩

/-- `collection.find_one({"_id": k})`: first record with the given key. -/
def findOne (key : String) : List (String × α) → Option α
  | [] => none
  | (k, v) :: rest => if k = key then some v else findOne key rest

/-- `collection.update_one({"_id": k}, ...)`: rewrite the first record with
the given key (Mongo's `update_one` touches at most one document);
`matched_count == 0` corresponds to `findOne key = none`. -/
def updateOne (key : String) (f : α → α) : List (String × α) → List (String × α)
  | [] => []
  | (k, v) :: rest =>
      if k = key then (k, f v) :: rest else (k, v) :: updateOne key f rest

/-- Modelled from the spec: `create_document` is defined in `database.py`,
which is not among the source files under src/; §4.3 specifies it as "insert
one validated record into a named collection, return its generated
identifier" (the caller in main.py passes `genId` output as that
identifier and uses the returned id verbatim). -/
def insertDoc (coll : List (String × α)) (nid : String) (doc : α) :
    List (String × α) :=
  coll ++ [(nid, doc)]

/-- A handler outcome: a JSON payload, or an `HTTPException` with status
code and detail string. -/
inductive HResp (α : Type) where
  | ok : α → HResp α
  | httpError : Nat → String → HResp α
deriving DecidableEq, Repr

/-! ### Request handlers (main.py) -/

/-- The filter of `GET /api/leads`: with a non-empty `assigned_to` the query
is `{"$or": [{"assigned_agent_id": a}, {"assigned_manager_id": a}]}`; with
`None` — or `""`, which is falsy in `if assigned_to:` — it is `{}`. -/
def leadMatchesAssigned (assigned_to : Option String) (l : Lead) : Bool :=
  match assigned_to with
  | none => true
  | some a =>
      if a = "" then true
      else l.assigned_agent_id == some a || l.assigned_manager_id == some a

/-- `GET /api/leads` (`list_leads`, main.py lines 151–158).  No validation is
applied to `assigned_to`; it goes straight into the filter.  `.reverse`
models `sort("created_at", -1)` given that inserts append in creation
order.  Serialization of the rows is modelled separately
(`to_serializable`); here the rows are returned as records. -/
def list_leads (st : DB) (assigned_to : Option String) :
    HResp (List (String × Lead)) × DB :=
  (HResp.ok ((st.lead.filter fun kv => leadMatchesAssigned assigned_to kv.2).reverse),
    st)

/-- `PATCH /api/leads/{lead_id}` (`update_lead`, main.py lines 165–175).
The empty-body check runs before the store is consulted. -/
def update_lead (st : DB) (lead_id : String) (payload : LeadUpdate) :
    HResp Bool × DB :=
  if ¬ oidValid lead_id then (HResp.httpError 400 "Invalid lead id", st)
  else if payload.isEmptyDump then (HResp.ok false, st)
  else
    match findOne (oidKey lead_id) st.lead with
    | none => (HResp.httpError 404 "Lead not found", st)
    | some _ =>
        (HResp.ok true,
          { st with lead := updateOne (oidKey lead_id) payload.applyTo st.lead })

/-- `POST /api/followups` (`create_followup`, main.py lines 178–189):
validate the id, require the lead to exist, insert the follow-up, then
`$push` the new id onto the lead's `follow_up_ids`. -/
def create_followup (st : DB) (payload : FollowUp) : HResp String × DB :=
  if ¬ oidValid payload.lead_id then (HResp.httpError 400 "Invalid lead id", st)
  else
    match findOne (oidKey payload.lead_id) st.lead with
    | none => (HResp.httpError 404 "Lead not found", st)
    | some _ =>
        let new_id := genId st.nextId
        let st' : DB :=
          { st with
            followup := insertDoc st.followup new_id payload
            nextId := st.nextId + 1 }
        let st'' : DB :=
          { st' with
            lead := updateOne (oidKey payload.lead_id)
              (fun l => { l with follow_up_ids := l.follow_up_ids ++ [new_id] })
              st'.lead }
        (HResp.ok new_id, st'')

/-- `GET /api/followups/{lead_id}` (`list_followups`, main.py lines
191–196): 400 on a malformed id, else the follow-ups whose stored string
`lead_id` equals the path parameter, newest first. -/
def list_followups (st : DB) (lead_id : String) :
    HResp (List (String × FollowUp)) × DB :=
  if ¬ oidValid lead_id then (HResp.httpError 400 "Invalid lead id", st)
  else
    (HResp.ok ((st.followup.filter fun kv => kv.2.lead_id == lead_id).reverse), st)

/-- The response body of `POST /api/quotations`: `{id, total}`. -/
structure QuoteCreateResp where
  id : String
  total : ℚ
deriving DecidableEq, Repr

/-- `POST /api/quotations` (`create_quote`, main.py lines 219–233): after the
well-formedness check on `lead_id` it computes and persists directly — the
lead collection is never consulted. -/
def create_quote (st : DB) (payload : QuotationCreate) :
    HResp QuoteCreateResp × DB :=
  if ¬ oidValid payload.lead_id then (HResp.httpError 400 "Invalid lead id", st)
  else
    let res := compute_quote payload.inputs
    let q : Quotation :=
      { lead_id := payload.lead_id
        project_id := payload.project_id
        pricing_inputs := payload.inputs
        generated_price := res.total
        pdf_url := none
        created_by := payload.created_by }
    let new_id := genId st.nextId
    ((HResp.ok { id := new_id, total := res.total }),
      { st with quotation := insertDoc st.quotation new_id q
                nextId := st.nextId + 1 })

/-- `GET /api/quotations/by-lead/{lead_id}` (`quotes_by_lead`, main.py
lines 235–240). -/
def quotes_by_lead (st : DB) (lead_id : String) :
    HResp (List (String × Quotation)) × DB :=
  if ¬ oidValid lead_id then (HResp.httpError 400 "Invalid lead id", st)
  else
    (HResp.ok ((st.quotation.filter fun kv => kv.2.lead_id == lead_id).reverse), st)

/-! ### Serialization (`to_serializable`, main.py lines 39–51)

Mongo documents are modelled as ordered key/value lists of BSON-ish values;
an `ObjectId` value carries its 24-hex string form. -/

inductive BVal where
  | str : String → BVal
  | num : ℚ → BVal
  | boolean : Bool → BVal
  | null : BVal
  | oid : String → BVal
  | arr : List BVal → BVal
  | subdoc : List (String × BVal) → BVal
deriving Repr

/-- Python `str(v)` for the values `to_serializable` applies it to: at its
call sites `_id` is always an `ObjectId` (rendered as its hex string), and
the loop applies it only to `ObjectId` values; a string renders as itself.
The remaining branches are unreachable from those call sites. -/
def pyStr : BVal → String
  | .oid s => s
  | .str s => s
  | _ => ""

/-- `doc.pop("_id")`: remove the (unique) `"_id"` key, returning its value
and the remaining fields in order; `none` when the key is absent. -/
def dictPop (key : String) : List (String × BVal) →
    Option (BVal × List (String × BVal))
  | [] => none
  | (k, v) :: rest =>
      if k = key then some (v, rest)
      else
        match dictPop key rest with
        | none => none
        | some (v', rest') => some (v', (k, v) :: rest')

/-- `doc[key] = v` on a Python dict: overwrite in place when the key exists,
append otherwise. -/
def dictSet (key : String) (v : BVal) : List (String × BVal) →
    List (String × BVal)
  | [] => [(key, v)]
  | (k, w) :: rest =>
      if k = key then (k, v) :: rest else (k, w) :: dictSet key v rest

/-- The loop body of `to_serializable`: a top-level `ObjectId` becomes its
string; in a top-level list, `ObjectId` elements become strings and other
elements pass through.  Nothing recurses into embedded sub-documents. -/
def convVal : BVal → BVal
  | .oid s => .str s
  | .arr xs =>
      .arr (xs.map fun x =>
        match x with
        | .oid s => BVal.str s
        | y => y)
  | v => v

/-- `to_serializable` (main.py lines 39–51): empty dicts pass through; else
`_id` is popped and re-exposed as `id` in string form, then every top-level
value runs through `convVal`. -/
def to_serializable (doc : List (String × BVal)) : List (String × BVal) :=
  if doc.isEmpty then doc
  else
    let doc1 :=
      match dictPop "_id" doc with
      | some (v, rest) => dictSet "id" (BVal.str (pyStr v)) rest
      | none => doc
    doc1.map fun kv => (kv.1, convVal kv.2)

/-- No `ObjectId` occurs anywhere in the value, at any nesting depth.
Every field a record persisted through this API's schemas carries —
strings, numbers, lists of strings, the embedded `pricing_inputs`
sub-document — satisfies this; the generated `_id` is the one `ObjectId`
in a stored document. -/
inductive BVal.OidFree : BVal → Prop where
  | str (s : String) : BVal.OidFree (.str s)
  | num (q : ℚ) : BVal.OidFree (.num q)
  | boolean (b : Bool) : BVal.OidFree (.boolean b)
  | null : BVal.OidFree .null
  | arr (xs : List BVal) (h : ∀ x ∈ xs, BVal.OidFree x) : BVal.OidFree (.arr xs)
  | subdoc (fs : List (String × BVal)) (h : ∀ kv ∈ fs, BVal.OidFree kv.2) :
      BVal.OidFree (.subdoc fs)

/-! ### Concrete fixtures used by witnesses -/

/-- A well-formed ObjectId string (24 lower-case hex characters). -/
def sampleOid : String := "0123456789abcdef01234567"

def sampleLead : Lead :=
  { name := "Asha"
    phone := "9990001111"
    email := none
    assigned_agent_id := none
    assigned_manager_id := none
    requirement_type := some ("Interior")
    source := some ("web")
    status := "New"
    follow_up_ids := [] }

/-- A store holding exactly one lead, keyed by `sampleOid`. -/
def dbOneLead : DB := ⟨[(sampleOid, sampleLead)], [], [], 1⟩

def sampleFollowUp : FollowUp :=
  { lead_id := sampleOid
    notes := "visited site"
    next_date := none
    type := "visit"
    agent_id := none }

/-! ### Helper lemmas -/

attribute [local semireducible] Rat.mul Rat.add Rat.sub Rat.inv

theorem findOne_updateOne (key : String) (f : α → α) (xs : List (String × α)) :
    findOne key (updateOne key f xs) = (findOne key xs).map f := by
  induction xs with
  | nil => simp [findOne, updateOne]
  | cons kv rest ih =>
      obtain ⟨k, v⟩ := kv
      by_cases h : k = key <;> simp [findOne, updateOne, h, ih]

theorem dictSet_of_not_mem (key : String) (v : BVal)
    (xs : List (String × BVal)) (h : ∀ kv ∈ xs, kv.1 ≠ key) :
    dictSet key v xs = xs ++ [(key, v)] := by
  induction xs with
  | nil => simp [dictSet]
  | cons kv rest ih =>
      obtain ⟨k, w⟩ := kv
      have hk : k ≠ key := h (k, w) (by simp)
      simp only [dictSet, if_neg hk, List.cons_append, List.cons.injEq, true_and]
      exact ih fun kv hkv => h kv (by simp [hkv])

theorem convVal_of_oidFree (v : BVal) (hv : BVal.OidFree v) : convVal v = v := by
  cases hv with
  | arr xs hxs =>
      simp only [convVal, BVal.arr.injEq]
      conv_rhs => rw [← List.map_id xs]
      refine List.map_congr_left fun x hx => ?_
      cases hxs x hx <;> rfl
  | _ => rfl

/-! ### Claims C3, C7, C8: the quotation calculator -/

/-- Claim C7 (confirmed): on area=1000, rate=1500, material_cost=50000,
gst=18, markup=10, `compute_quote` returns subtotal=1550000.00,
gst=279000.00, markup=182900.00, total=2011900.00. -/
theorem compute_quote_example :
    compute_quote ⟨1000, 1500, 50000, 18, 10⟩ =
      ⟨1550000, 279000, 182900, 2011900⟩ := by decide

/-- Claim C3, counterexample: the claim says each later stage is computed
from the already-rounded value of the earlier stage.  On the valid input
area=100, rate=1, material_cost=0, gst_percent=0.256, markup_percent=100
the source's `compute_quote` (which keeps the stages unrounded) returns
total 200.51, while the stage-wise-rounded computation the claim describes
yields 200.52. -/
theorem compute_quote_not_staged_rounding :
    QuotationInputs.Valid ⟨100, 1, 0, 256/1000, 100⟩ ∧
    (compute_quote ⟨100, 1, 0, 256/1000, 100⟩).total = 20051/100 ∧
    (compute_quote_staged ⟨100, 1, 0, 256/1000, 100⟩).total = 20052/100 ∧
    (compute_quote ⟨100, 1, 0, 256/1000, 100⟩).total ≠
      (compute_quote_staged ⟨100, 1, 0, 256/1000, 100⟩).total := by decide

/-- Claim C3 as amended (proved): every returned monetary value is rounded
to 2 decimal places exactly once, at return; the stages feeding it are the
exact, unrounded values, so each returned field is `round2` of a closed
form in the raw inputs. -/
theorem compute_quote_rounds_once_at_return (i : QuotationInputs) :
    (compute_quote i).subtotal =
      round2 (i.area * i.rate_per_sqft + i.material_cost) ∧
    (compute_quote i).gst =
      round2 ((i.area * i.rate_per_sqft + i.material_cost) * (i.gst_percent / 100)) ∧
    (compute_quote i).markup =
      round2 ((i.area * i.rate_per_sqft + i.material_cost) *
        (1 + i.gst_percent / 100) * (i.markup_percent / 100)) ∧
    (compute_quote i).total =
      round2 ((i.area * i.rate_per_sqft + i.material_cost) *
        (1 + i.gst_percent / 100) * (1 + i.markup_percent / 100)) := by
  refine ⟨rfl, rfl, ?_, ?_⟩ <;>
    · simp only [compute_quote]
      congr 1
      ring

/-- Claim C8 (confirmed): the staged sum-of-parts computation collapses to
the closed-form product — the returned total is the 2-decimal rounding of
`(area*rate + material) * (1 + gst/100) * (1 + markup/100)`.  (Holds for
all rational inputs, in particular all non-negative ones.) -/
theorem compute_quote_total_closed_form (i : QuotationInputs) :
    (compute_quote i).total =
      round2 ((i.area * i.rate_per_sqft + i.material_cost) *
        (1 + i.gst_percent / 100) * (1 + i.markup_percent / 100)) := by
  simp only [compute_quote]
  congr 1
  ring

/-! ### Claim C1: POST /api/quotations -/

/-- Claim C1, counterexample: the claim says `create_quote` fails with 404
when no Lead with the given id exists and only persists when it does.  On
an empty store and a well-formed lead id, the handler answers
`{id, total}` and persists a quotation — it never consults the lead
collection. -/
theorem create_quote_counterexample :
    oidValid sampleOid = true ∧
    DB.empty.lead = [] ∧
    (create_quote DB.empty ⟨sampleOid, none, ⟨1, 1, 0, 0, 0⟩, none⟩).1 =
      HResp.ok ⟨genId 0, 1⟩ ∧
    (create_quote DB.empty ⟨sampleOid, none, ⟨1, 1, 0, 0, 0⟩, none⟩).2.quotation.length
      = 1 := by decide

/-- Claim C1 as amended (proved): `create_quote` validates only
well-formedness of `lead_id` (400 on a malformed id, nothing persisted);
for any well-formed `lead_id` — whether or not a Lead with that id exists —
it persists the Quotation and returns `{id, total}`; no 404 existence check
is performed and the lead collection is never read or written. -/
theorem create_quote_spec (st : DB) (p : QuotationCreate) :
    (oidValid p.lead_id = false →
      create_quote st p = (HResp.httpError 400 "Invalid lead id", st)) ∧
    (oidValid p.lead_id = true →
      create_quote st p =
        (HResp.ok ⟨genId st.nextId, (compute_quote p.inputs).total⟩,
          { st with
            quotation := st.quotation ++
              [(genId st.nextId,
                ⟨p.lead_id, p.project_id, p.inputs,
                  (compute_quote p.inputs).total, none, p.created_by⟩)]
            nextId := st.nextId + 1 })) := by
  constructor <;> intro h <;> simp [create_quote, h, insertDoc]

theorem create_quote_spec_witness :
    create_quote DB.empty ⟨"zz", none, ⟨1, 1, 0, 0, 0⟩, none⟩ =
      (HResp.httpError 400 "Invalid lead id", DB.empty) ∧
    (create_quote DB.empty ⟨sampleOid, none, ⟨1, 1, 0, 0, 0⟩, none⟩).1 =
      HResp.ok ⟨genId 0, (compute_quote ⟨1, 1, 0, 0, 0⟩).total⟩ := by
  refine ⟨(create_quote_spec DB.empty _).1 (by decide), ?_⟩
  rw [(create_quote_spec DB.empty ⟨sampleOid, none, ⟨1, 1, 0, 0, 0⟩, none⟩).2
    (by decide)]
  rfl

/-! ### Claim C2: malformed identifiers across the endpoints -/

/-- Claim C2, counterexample: the claim says every endpoint that accepts a
caller-supplied identifier — including the `assigned_to` query parameter of
`GET /api/leads` — rejects a malformed identifier with 400.  `list_leads`
performs no validation at all on `assigned_to`: on a malformed value it
answers 200 with the (empty) filter result, not 400. -/
theorem list_leads_counterexample :
    oidValid "not-a-valid-id" = false ∧
    list_leads DB.empty (some ("not-a-valid-id")) = (HResp.ok [], DB.empty) := by
  decide

/-- Claim C2 as amended (proved): every path or body identifier
(`PATCH /api/leads/{id}`, `GET /api/followups/{lead_id}`,
`GET /api/quotations/by-lead/{lead_id}`, the `lead_id` bodies of
`POST /api/followups` and `POST /api/quotations`) is rejected with 400 when
malformed, before any persistence filter runs, and none of these produce an
internal failure; the `assigned_to` query parameter of `GET /api/leads` is
the exception — it is passed unvalidated into the string-equality filter
and the endpoint answers 200 (it has no error path at all). -/
theorem malformed_id_handling (st : DB) (s : String) (h : oidValid s = false) :
    (∀ p : LeadUpdate,
      update_lead st s p = (HResp.httpError 400 "Invalid lead id", st)) ∧
    list_followups st s = (HResp.httpError 400 "Invalid lead id", st) ∧
    quotes_by_lead st s = (HResp.httpError 400 "Invalid lead id", st) ∧
    (∀ p : FollowUp, p.lead_id = s →
      create_followup st p = (HResp.httpError 400 "Invalid lead id", st)) ∧
    (∀ p : QuotationCreate, p.lead_id = s →
      create_quote st p = (HResp.httpError 400 "Invalid lead id", st)) ∧
    (list_leads st (some s)).1 =
      HResp.ok ((st.lead.filter fun kv => leadMatchesAssigned (some s) kv.2).reverse) := by
  refine ⟨fun p => ?_, ?_, ?_, fun p hp => ?_, fun p hp => ?_, rfl⟩
  · simp [update_lead, h]
  · simp [list_followups, h]
  · simp [quotes_by_lead, h]
  · simp [create_followup, hp, h]
  · simp [create_quote, hp, h]

theorem malformed_id_handling_witness :
    list_followups DB.empty "zz" = (HResp.httpError 400 "Invalid lead id", DB.empty) ∧
    update_lead DB.empty "zz" ⟨none, none, none⟩ =
      (HResp.httpError 400 "Invalid lead id", DB.empty) := by
  have h := malformed_id_handling DB.empty "zz" (by decide)
  exact ⟨h.2.1, h.1 _⟩

/-! ### Claims C4, C5: POST /api/followups -/

/-- Claim C4 (confirmed): a well-formed `lead_id` that matches no Lead makes
`create_followup` answer 404 with the store returned exactly as it was — no
FollowUp persisted, no Lead modified. -/
theorem create_followup_missing_lead (st : DB) (p : FollowUp)
    (hv : oidValid p.lead_id = true)
    (habs : findOne (oidKey p.lead_id) st.lead = none) :
    create_followup st p = (HResp.httpError 404 "Lead not found", st) := by
  simp [create_followup, hv, habs]

theorem create_followup_missing_lead_witness :
    create_followup DB.empty sampleFollowUp =
      (HResp.httpError 404 "Lead not found", DB.empty) :=
  create_followup_missing_lead DB.empty sampleFollowUp (by decide) (by decide)

/-- Claim C5 (confirmed): when the lead exists, `create_followup` answers
`{id}` with the freshly generated identifier, persists exactly that
follow-up record, and the owning lead's `follow_up_ids` grows by exactly
one entry — equal to the returned id, appended at the end. -/
theorem create_followup_appends (st : DB) (p : FollowUp) (l : Lead)
    (hv : oidValid p.lead_id = true)
    (hsome : findOne (oidKey p.lead_id) st.lead = some l) :
    (create_followup st p).1 = HResp.ok (genId st.nextId) ∧
    (create_followup st p).2.followup = st.followup ++ [(genId st.nextId, p)] ∧
    findOne (oidKey p.lead_id) (create_followup st p).2.lead =
      some { l with follow_up_ids := l.follow_up_ids ++ [genId st.nextId] } := by
  simp [create_followup, hv, hsome, insertDoc, findOne_updateOne]

theorem create_followup_appends_witness :
    (create_followup dbOneLead sampleFollowUp).1 = HResp.ok (genId 1) ∧
    (create_followup dbOneLead sampleFollowUp).2.followup =
      [(genId 1, sampleFollowUp)] ∧
    findOne (oidKey sampleOid) (create_followup dbOneLead sampleFollowUp).2.lead =
      some { sampleLead with follow_up_ids := [genId 1] } := by
  have h := create_followup_appends dbOneLead sampleFollowUp sampleLead
    (by decide) (by decide)
  simpa [dbOneLead] using h

/-! ### Claims C6, C10: PATCH /api/leads/{id} -/

/-- Claim C6, counterexample: the claim says a well-formed id matching no
Lead yields 404.  But the empty-body check runs first: on a well-formed id
absent from an empty store, an empty body gets `{updated: false}`, not
404. -/
theorem update_lead_empty_body_counterexample :
    oidValid sampleOid = true ∧
    DB.empty.lead = [] ∧
    update_lead DB.empty sampleOid ⟨none, none, none⟩ =
      (HResp.ok false, DB.empty) := by decide

/-- Claim C6 as amended (proved): malformed id → 400; empty body →
`{updated: false}` with no write, and this check precedes the existence
check, so it answers `{updated: false}` whether or not the id matches;
404 arises exactly when the id is well-formed, the body is non-empty and
no Lead matches — in every error case the store is returned unchanged. -/
theorem update_lead_spec (st : DB) (s : String) (p : LeadUpdate) :
    (oidValid s = false →
      update_lead st s p = (HResp.httpError 400 "Invalid lead id", st)) ∧
    (oidValid s = true → p.isEmptyDump = true →
      update_lead st s p = (HResp.ok false, st)) ∧
    (oidValid s = true → p.isEmptyDump = false →
      findOne (oidKey s) st.lead = none →
      update_lead st s p = (HResp.httpError 404 "Lead not found", st)) := by
  refine ⟨fun h => ?_, fun hv he => ?_, fun hv he hn => ?_⟩ <;>
    simp [update_lead, *]

theorem update_lead_spec_witness :
    update_lead DB.empty "!!" ⟨none, none, none⟩ =
      (HResp.httpError 400 "Invalid lead id", DB.empty) ∧
    update_lead dbOneLead sampleOid ⟨none, none, none⟩ =
      (HResp.ok false, dbOneLead) ∧
    update_lead DB.empty sampleOid ⟨some ("Contacted"), none, none⟩ =
      (HResp.httpError 404 "Lead not found", DB.empty) :=
  ⟨(update_lead_spec DB.empty _ _).1 (by decide),
    (update_lead_spec dbOneLead _ _).2.1 (by decide) (by decide),
    (update_lead_spec DB.empty _ _).2.2 (by decide) (by decide) (by decide)⟩

/-- Claim C10 (confirmed): a PATCH on an existing Lead writes only the
fields among status / assigned_agent_id / assigned_manager_id supplied with
a non-null value; a null field — like an absent one — leaves the stored
value in place (it cannot clear it), and name, phone, email,
requirement_type, source and follow_up_ids are untouched.  (The all-null
body performs no write at all, which the same equations cover.) -/
theorem update_lead_frame (st : DB) (s : String) (p : LeadUpdate) (l : Lead)
    (hv : oidValid s = true)
    (hsome : findOne (oidKey s) st.lead = some l) :
    ∃ l', findOne (oidKey s) (update_lead st s p).2.lead = some l' ∧
      l'.name = l.name ∧ l'.phone = l.phone ∧ l'.email = l.email ∧
      l'.requirement_type = l.requirement_type ∧ l'.source = l.source ∧
      l'.follow_up_ids = l.follow_up_ids ∧
      l'.status = p.status.getD l.status ∧
      l'.assigned_agent_id =
        (match p.assigned_agent_id with
         | some v => some v
         | none => l.assigned_agent_id) ∧
      l'.assigned_manager_id =
        (match p.assigned_manager_id with
         | some v => some v
         | none => l.assigned_manager_id) := by
  by_cases he : p.isEmptyDump
  · have h0 : p.status = none ∧ p.assigned_agent_id = none ∧
        p.assigned_manager_id = none := by
      simpa [LeadUpdate.isEmptyDump, Option.isNone_iff_eq_none,
        Bool.and_eq_true, and_assoc] using he
    refine ⟨l, ?_⟩
    simp [update_lead, hv, he, hsome, h0.1, h0.2.1, h0.2.2]
  · refine ⟨p.applyTo l, ?_⟩
    simp [update_lead, hv, he, hsome, findOne_updateOne, LeadUpdate.applyTo]

theorem update_lead_frame_witness :
    ∃ l', findOne (oidKey sampleOid)
        (update_lead dbOneLead sampleOid ⟨some ("Contacted"), some ("a1"), none⟩).2.lead
        = some l' ∧
      l'.name = sampleLead.name ∧ l'.phone = sampleLead.phone ∧
      l'.email = sampleLead.email ∧
      l'.requirement_type = sampleLead.requirement_type ∧
      l'.source = sampleLead.source ∧
      l'.follow_up_ids = sampleLead.follow_up_ids ∧
      l'.status = "Contacted" ∧ l'.assigned_agent_id = some ("a1") ∧
      l'.assigned_manager_id = sampleLead.assigned_manager_id := by
  have h := update_lead_frame dbOneLead sampleOid
    ⟨some ("Contacted"), some ("a1"), none⟩ sampleLead (by decide) (by decide)
  simpa using h

/-! ### Claim C9: serialization of persisted records -/

/-- Claim C9 (confirmed): a persisted record carries its generated
`ObjectId` under `_id` and — because every reference field the schemas
persist is a plain string — no `ObjectId` anywhere else, at any depth
(`hfree`).  Serializing such a record exposes the identifier as the string
field `id`, drops `_id`, leaves every other field untouched, and the
output contains no internal reference value anywhere, nested values
included. -/
theorem to_serializable_persisted (h : String) (rest : List (String × BVal))
    (hkeys : ∀ kv ∈ rest, kv.1 ≠ "_id" ∧ kv.1 ≠ "id")
    (hfree : ∀ kv ∈ rest, BVal.OidFree kv.2) :
    to_serializable (("_id", BVal.oid h) :: rest) =
      rest ++ [("id", BVal.str h)] ∧
    (∀ kv ∈ to_serializable (("_id", BVal.oid h) :: rest),
      kv.1 ≠ "_id" ∧ BVal.OidFree kv.2) ∧
    ("id", BVal.str h) ∈ to_serializable (("_id", BVal.oid h) :: rest) := by
  have hpop : dictPop "_id" (("_id", BVal.oid h) :: rest) =
      some (BVal.oid h, rest) := by
    simp [dictPop]
  have hset : dictSet "id" (BVal.str (pyStr (BVal.oid h))) rest =
      rest ++ [("id", BVal.str h)] :=
    dictSet_of_not_mem "id" (BVal.str h) rest fun kv hkv => (hkeys kv hkv).2
  have heq : to_serializable (("_id", BVal.oid h) :: rest) =
      rest ++ [("id", BVal.str h)] := by
    simp only [to_serializable, List.isEmpty_cons, Bool.false_eq_true,
      if_false, hpop, hset]
    rw [List.map_append]
    congr 1
    calc rest.map (fun kv => (kv.1, convVal kv.2)) = rest.map id :=
          List.map_congr_left fun kv hkv => by
            obtain ⟨a, b⟩ := kv
            simp [convVal_of_oidFree b (hfree (a, b) hkv)]
      _ = rest := List.map_id rest
  refine ⟨heq, ?_, ?_⟩
  · rw [heq]
    intro kv hkv
    rcases List.mem_append.mp hkv with hL | hR
    · exact ⟨(hkeys kv hL).1, hfree kv hL⟩
    · have : kv = ("id", BVal.str h) := by simpa using hR
      subst this
      exact ⟨by simp, BVal.OidFree.str h⟩
  · rw [heq]
    exact List.mem_append.mpr (Or.inr (by simp))

theorem to_serializable_persisted_witness :
    to_serializable [("_id", BVal.oid sampleOid), ("name", BVal.str ("Asha")),
        ("amenities_images", BVal.arr [BVal.str ("u1")])] =
      [("name", BVal.str ("Asha")),
        ("amenities_images", BVal.arr [BVal.str ("u1")]),
        ("id", BVal.str sampleOid)] := by
  have h := to_serializable_persisted sampleOid
    [("name", BVal.str ("Asha")), ("amenities_images", BVal.arr [BVal.str ("u1")])]
    (by intro kv hkv
        simp only [List.mem_cons, List.mem_singleton, List.not_mem_nil] at hkv
        rcases hkv with rfl | rfl | h0
        · exact ⟨by decide, by decide⟩
        · exact ⟨by decide, by decide⟩
        · cases h0)
    (by intro kv hkv
        simp only [List.mem_cons, List.mem_singleton, List.not_mem_nil] at hkv
        rcases hkv with rfl | rfl | h0
        · exact BVal.OidFree.str _
        · refine BVal.OidFree.arr _ fun x hx => ?_
          have : x = BVal.str ("u1") := by simpa using hx
          subst this
          exact BVal.OidFree.str _
        · cases h0)
  simpa using h.1

end DreamNest
